import Mathlib

/-!
Shallow embedding of the infinite-react-slider component
(`src/lib/index.js`): the duplicate-count computation, the
frame-callback animation loop, play/pause, the viewport gate, the
visibility handler, and the width memoization of the renderer.
JavaScript numbers that can become `NaN`/`Infinity` are modelled by an
explicit `JSNum` type; mutable refs that the code tests for falsiness
(`!ref.current`, where both `null` and `0` count as unset) are modelled
by `Option ℚ` together with `effRef`.
-/

/-- Constant `TOTAL_TIME = 10000` from the source. -/
def TOTAL_TIME : ℚ := 10000

/-- Constant `DEFAULT_DUPLICATES = 2` from the source. -/
def DEFAULT_DUPLICATES : ℚ := 2

/-- Constant `FPS = 1000 / 60` from the source; it is the default value
of the `fps` prop and is compared directly against a millisecond
difference in `animateSlider`. -/
def FPS : ℚ := 1000 / 60

/-- A JavaScript number as produced by the arithmetic in this component:
finite, `NaN`, or a signed infinity. -/
inductive JSNum where
  | nan
  | posInf
  | negInf
  | num (q : ℚ)
deriving DecidableEq

/-- JavaScript division of two finite numbers: division by zero yields a
signed infinity (or `NaN` for `0/0`). -/
def jsDiv (a b : ℚ) : JSNum :=
  if b = 0 then
    if a = 0 then JSNum.nan else if 0 < a then JSNum.posInf else JSNum.negInf
  else JSNum.num (a / b)

/-- Truncation toward zero, the value `parseInt` extracts from the
decimal rendering of a finite number (exponent-notation corner cases of
very small magnitudes do not arise for the pixel values used here). -/
def jsTrunc (q : ℚ) : ℤ :=
  if 0 ≤ q then ⌊q⌋ else -⌊-q⌋

/-- `parseInt` applied to a number: `NaN` and the infinities stringify
to prefixes with no digits, giving `NaN`; finite values truncate. -/
def jsParseInt : JSNum → JSNum
  | JSNum.nan => JSNum.nan
  | JSNum.posInf => JSNum.nan
  | JSNum.negInf => JSNum.nan
  | JSNum.num q => JSNum.num ((jsTrunc q : ℤ) : ℚ)

/-- The `sliderWidth` / `sliderHeight` state: initialised to the string
`"auto"`, later set to a measured pixel number. -/
inductive Measured where
  | auto
  | px (q : ℚ)
deriving DecidableEq

/-- Initial `duplicates` state: `React.useState(1)`. -/
def initialDuplicates : JSNum := JSNum.num 1

/-- `duplicateSlides` from the source:
`if (sliderWidth < window.innerWidth) setDuplicates(parseInt(window.innerWidth / (sliderWidth / 2))) else setDuplicates(DEFAULT_DUPLICATES)`.
When `sliderWidth` is still the string `"auto"`, the relational
comparison converts it to `NaN` and is false, so the else branch runs. -/
def duplicateSlides : Measured → ℚ → JSNum
  | Measured.auto, _ => JSNum.num DEFAULT_DUPLICATES
  | Measured.px q, innerWidth =>
      if q < innerWidth then jsParseInt (jsDiv innerWidth (q / 2))
      else JSNum.num DEFAULT_DUPLICATES

/-- The `setDuplicates` update performed by `duplicateSlides`: it
overwrites the previous `duplicates` state without reading it, so the
result depends only on `sliderWidth` and `window.innerWidth`. -/
def dupUpdate (_prev : JSNum) (sliderWidth : Measured) (innerWidth : ℚ) : JSNum :=
  duplicateSlides sliderWidth innerWidth

/-- The mutable state of one mounted slider that the animation loop and
the play/pause handlers touch: the refs `currentTime` and
`lastFrameTimestamp` (`none` = `null`), the published `translate`
progress (the `lastProgressStep` ref mirrors it), and whether a frame
callback handle is pending (`frameId`). -/
structure SliderState where
  currentTime : Option ℚ
  lastFrame : Option ℚ
  translate : ℚ
  framePending : Bool
deriving DecidableEq

/-- State right after the mount effect fired the first
`requestAnimationFrame`: both refs `null`, `translate` at its
`useState(0)` initial value, one callback pending. -/
def mountState : SliderState :=
  { currentTime := none, lastFrame := none, translate := 0, framePending := true }

/-- Effective value of a ref guarded by `if (!ref.current) ref.current = timestamp`:
JavaScript falsiness treats both `null` and `0` as unset. -/
def effRef (v : Option ℚ) (t : ℚ) : ℚ :=
  match v with
  | none => t
  | some x => if x = 0 then t else x

/-- One invocation of `animateSlider(timestamp)` from the source,
returning the new state and the list of `setTranslate` publications it
makes. After the falsy-guarded initialisation of both refs, the frame
is accepted when `timestamp - lastFrameTimestamp > fps`; then
`progress = min((timestamp - currentTime) / totalTime, 1)` is published
and the throttle ref cleared; if `progress` reached `1`, `currentTime`
is cleared and `0` is published in the same callback. Every branch
reschedules (`frameId` stays pending). -/
def animateSlider (fps T : ℚ) (s : SliderState) (t : ℚ) : SliderState × List ℚ :=
  if t - effRef s.lastFrame t > fps then
    if min ((t - effRef s.currentTime t) / T) 1 < 1 then
      ({ currentTime := some (effRef s.currentTime t), lastFrame := none,
         translate := min ((t - effRef s.currentTime t) / T) 1, framePending := true },
       [min ((t - effRef s.currentTime t) / T) 1])
    else
      ({ currentTime := none, lastFrame := none, translate := 0, framePending := true },
       [min ((t - effRef s.currentTime t) / T) 1, 0])
  else
    ({ currentTime := some (effRef s.currentTime t), lastFrame := some (effRef s.lastFrame t),
       translate := s.translate, framePending := true },
     [])

/-- Per-callback publication lists of a run of `animateSlider` over a
sequence of frame timestamps. -/
def runOuts (fps T : ℚ) : SliderState → List ℚ → List (List ℚ)
  | _, [] => []
  | s, t :: ts => (animateSlider fps T s t).2 :: runOuts fps T (animateSlider fps T s t).1 ts

/-- `pause` from the source: cancels the pending callback and nulls
`frameId`; it touches nothing else. -/
def pause (s : SliderState) : SliderState :=
  { s with framePending := false }

/-- `play` from the source: guarded by `if (!frameId.current)`. Returns
the new state and whether a new callback chain was scheduled. -/
def play (s : SliderState) : SliderState × Bool :=
  if s.framePending then (s, false)
  else ({ s with framePending := true }, true)

/-- The callback that a successful `play` schedules: it sets
`currentTime.current = timestamp - totalTime * lastProgressStep.current`
and then runs `animateSlider(timestamp)`. -/
def playFrame (fps T : ℚ) (s : SliderState) (t : ℚ) : SliderState × List ℚ :=
  animateSlider fps T { s with currentTime := some (t - T * s.translate) } t

/-- `isInViewport` from the source:
`top = rect.top + rect.height - offsetTop; bottom = rect.top + offsetBottom; top > 0 && bottom < window.innerHeight`. -/
def isInViewport (rectTop rectHeight offsetTop offsetBottom innerHeight : ℚ) : Bool :=
  decide (0 < rectTop + rectHeight - offsetTop) && decide (rectTop + offsetBottom < innerHeight)

/-- `handleViewportState` from the source:
`if (!isInViewport()) { pause() } else { play() }`. -/
def handleViewportState (rectTop rectHeight offsetTop offsetBottom innerHeight : ℚ)
    (s : SliderState) : SliderState :=
  if isInViewport rectTop rectHeight offsetTop offsetBottom innerHeight then (play s).1
  else pause s

/-- `document.visibilityState` values. -/
inductive Visibility where
  | visible
  | hidden
deriving DecidableEq

/-- `handleVisibilityChange` from the source: two sequential checks,
`if (visibilityState === "hidden") pause();`
`if (visibilityState === "visible" && isInViewport()) play();`. -/
def handleVisibilityChange (vis : Visibility) (inView : Bool) (s : SliderState) : SliderState :=
  let s₁ := if vis = Visibility.hidden then pause s else s
  if vis = Visibility.visible ∧ inView = true then (play s₁).1 else s₁

/-- A CSS length as rendered by the `width` memo: the string `"auto"`
or a pixel value (possibly `NaN`). -/
inductive CssLen where
  | auto
  | px (v : JSNum)
deriving DecidableEq

/-- Multiplication of a finite number by the `duplicates` state, which
is either finite or `NaN` (`parseInt` never yields an infinity). -/
def jsMulFin (q : ℚ) : JSNum → JSNum
  | JSNum.num d => JSNum.num (q * d)
  | _ => JSNum.nan

/-- The body of the `width` memo:
`typeof sliderWidth === 'string' ? sliderWidth : sliderWidth * duplicates + 'px'`. -/
def computeWidth (sliderWidth : Measured) (duplicates : JSNum) : CssLen :=
  match sliderWidth with
  | Measured.auto => CssLen.auto
  | Measured.px q => CssLen.px (jsMulFin q duplicates)

/-- The cache of the `width` `React.useMemo` call: the dependency array
it was last computed with and the cached value. -/
structure WidthMemo where
  deps : Option (Measured × JSNum)
  value : CssLen
deriving DecidableEq

/-- Memo state before the first render: nothing cached. -/
def initialWidthMemo : WidthMemo :=
  { deps := none, value := CssLen.auto }

/-- One render's evaluation of the `width` memo. The dependency array
written in the source is `[sliderHeight, duplicates]` — it does not
contain `sliderWidth` — so the cached value is reused whenever
`sliderHeight` and `duplicates` are unchanged, even if `sliderWidth`
changed. -/
def widthMemoStep (m : WidthMemo) (sliderWidth sliderHeight : Measured)
    (duplicates : JSNum) : WidthMemo :=
  if m.deps = some (sliderHeight, duplicates) then m
  else { deps := some (sliderHeight, duplicates),
         value := computeWidth sliderWidth duplicates }

/-- Fold the `width` memo over a sequence of renders, each given by the
render's `(sliderWidth, sliderHeight, duplicates)` state. -/
def renderWidths (m : WidthMemo) : List (Measured × Measured × JSNum) → WidthMemo
  | [] => m
  | (sw, sh, d) :: rest => renderWidths (widthMemoStep m sw sh d) rest

/-- Invariant tying the animation state to every later frame timestamp
`t`: the published progress is nonnegative; when no cycle anchor is set
the published progress is `0`; and a set anchor lies at or before `t`,
a zero anchor (which the falsy guard will re-anchor) only occurs with
progress `0`, and the published progress is at most the progress the
anchor yields at `t`. -/
def CycleInv (T : ℚ) (s : SliderState) (t : ℚ) : Prop :=
  0 ≤ s.translate ∧
  (s.currentTime = none → s.translate = 0) ∧
  ∀ ct, s.currentTime = some ct →
    ct ≤ t ∧ (ct = 0 → s.translate = 0) ∧ s.translate ≤ min ((t - ct) / T) 1

/-- Helper: on the first render `duplicates` is its `useState(1)`
initial value, and with a measured strip width of `0` the computation
`parseInt(innerWidth / (0 / 2))` evaluates to `parseInt(Infinity) = NaN`. -/
theorem duplicates_guard_counterexample :
    duplicateSlides (Measured.px 0) 800 = JSNum.nan ∧ initialDuplicates = JSNum.num 1 := by
  constructor
  · norm_num [duplicateSlides, jsDiv, jsParseInt]
  · rfl

/-- Claim C1 (amended): after the first duplicator run, the duplicate
count is an integer `≥ 2` whenever the strip width is still unmeasured
(`"auto"`) or is a positive number: the unmeasured and
`stripWidth ≥ viewportWidth` cases give the default `2`, and
`0 < stripWidth < viewportWidth` gives
`parseInt(viewportWidth / (stripWidth / 2)) ≥ 2`. (The division is not
guarded: `stripWidth = 0` yields `NaN`, and before the first run the
count is its `useState(1)` initial value `1` — see the
counterexample.) -/
theorem duplicates_ge_two_amended :
    (∀ v : ℚ, duplicateSlides Measured.auto v = JSNum.num 2) ∧
    (∀ q v : ℚ, 0 < q →
      ∃ n : ℤ, duplicateSlides (Measured.px q) v = JSNum.num (n : ℚ) ∧ 2 ≤ n) := by
  constructor
  · intro v
    rfl
  · intro q v hq
    by_cases h : q < v
    · refine ⟨⌊v / (q / 2)⌋, ?_, ?_⟩
      · have hq2 : q / 2 ≠ 0 := by positivity
        have hvpos : 0 < v := hq.trans h
        have hnn : 0 ≤ v / (q / 2) := by positivity
        simp [duplicateSlides, h, jsDiv, hq2, jsParseInt, jsTrunc, hnn]
      · rw [Int.le_floor]
        rw [le_div_iff₀ (by positivity)]
        push_cast
        linarith
    · exact ⟨2, by simp [duplicateSlides, h]; rfl, le_refl 2⟩

/-- Witness for the amended C1 theorem at strip width `100`,
viewport width `450`. -/
theorem duplicates_ge_two_amended_witness :
    ∃ n : ℤ, duplicateSlides (Measured.px 100) 450 = JSNum.num (n : ℚ) ∧ 2 ≤ n :=
  duplicates_ge_two_amended.2 100 450 (by norm_num)

/-- Claim C3: for a positive measured strip width and a nonnegative
viewport width, the duplicator computes
`floor(viewportWidth / (stripWidth / 2))` when the strip is narrower
than the viewport and the default `2` otherwise; in particular
`stripWidth = 100, viewportWidth = 450` gives `9` and
`stripWidth = 1000, viewportWidth = 450` gives `2`; and the update
overwrites the previous count without reading it, so identical inputs
give identical output. -/
theorem duplicateSlides_formula :
    (∀ s v : ℚ, 0 < s → 0 ≤ v →
      duplicateSlides (Measured.px s) v =
        if s < v then JSNum.num ((⌊v / (s / 2)⌋ : ℤ) : ℚ) else JSNum.num 2) ∧
    duplicateSlides (Measured.px 100) 450 = JSNum.num 9 ∧
    duplicateSlides (Measured.px 1000) 450 = JSNum.num 2 ∧
    (∀ prev₁ prev₂ : JSNum, ∀ w : Measured, ∀ v : ℚ,
      dupUpdate prev₁ w v = dupUpdate prev₂ w v) := by
  have h1 : ∀ s v : ℚ, 0 < s → 0 ≤ v →
      duplicateSlides (Measured.px s) v =
        if s < v then JSNum.num ((⌊v / (s / 2)⌋ : ℤ) : ℚ) else JSNum.num 2 := by
    intro s v hs hv
    by_cases h : s < v
    · have hs2 : s / 2 ≠ 0 := by positivity
      have hnn : 0 ≤ v / (s / 2) := by positivity
      simp [duplicateSlides, h, jsDiv, hs2, jsParseInt, jsTrunc, hnn]
    · simp [duplicateSlides, h]
      rfl
  refine ⟨h1, ?_, ?_, fun _ _ _ _ => rfl⟩
  · rw [h1 100 450 (by norm_num) (by norm_num),
      if_pos (by norm_num : (100 : ℚ) < 450),
      show (450 : ℚ) / (100 / 2) = 9 by norm_num]
    norm_num
  · rw [h1 1000 450 (by norm_num) (by norm_num),
      if_neg (by norm_num : ¬ (1000 : ℚ) < 450)]

/-- Witness for the C3 theorem at strip width `100`, viewport
width `450`. -/
theorem duplicateSlides_formula_witness :
    duplicateSlides (Measured.px 100) 450 =
      if (100 : ℚ) < 450 then JSNum.num ((⌊(450 : ℚ) / (100 / 2)⌋ : ℤ) : ℚ) else JSNum.num 2 :=
  duplicateSlides_formula.1 100 450 (by norm_num) (by norm_num)

/-- Claim C7: the viewport gate classifies the component as in-viewport
exactly when `(boxTop + boxHeight - offsetTop) > 0` and
`(boxTop + offsetBottom) < viewportHeight`; in particular box
`{top := -50, height := 40}` with `offsetTop = 0` in an `800`-tall
viewport is out of viewport, and the scroll handler then pauses (no
callback left pending). -/
theorem isInViewport_spec :
    (∀ rectTop rectHeight offsetTop offsetBottom innerHeight : ℚ,
      isInViewport rectTop rectHeight offsetTop offsetBottom innerHeight = true ↔
        (0 < rectTop + rectHeight - offsetTop ∧ rectTop + offsetBottom < innerHeight)) ∧
    isInViewport (-50) 40 0 0 800 = false ∧
    (∀ s : SliderState, (handleViewportState (-50) 40 0 0 800 s).framePending = false) := by
  have h : isInViewport (-50) 40 0 0 800 = false := by
    norm_num [isInViewport]
  refine ⟨?_, h, ?_⟩
  · intro rectTop rectHeight offsetTop offsetBottom innerHeight
    simp [isInViewport]
  · intro s
    simp [handleViewportState, h, pause]

/-- Claim C8: on a visibility change, a hidden document pauses, and a
visible document plays exactly when the component intersects the
viewport (otherwise the state is left untouched). -/
theorem handleVisibilityChange_spec (vis : Visibility) (inView : Bool) (s : SliderState) :
    (vis = Visibility.hidden → handleVisibilityChange vis inView s = pause s) ∧
    (vis = Visibility.visible →
      handleVisibilityChange vis inView s = if inView = true then (play s).1 else s) := by
  cases vis <;> cases inView <;> simp [handleVisibilityChange]

/-- Witness for the C8 theorem: hidden document with the component in
view pauses the mounted state. -/
theorem handleVisibilityChange_spec_witness :
    handleVisibilityChange Visibility.hidden true mountState = pause mountState :=
  (handleVisibilityChange_spec Visibility.hidden true mountState).1 rfl

/-- Claim C9: `play` while a callback is pending is a no-op that
schedules nothing; `play` twice in a row schedules no second chain; and
`pause` while paused is a no-op that retains the last published
progress and both refs. -/
theorem play_pause_idempotent (s : SliderState) :
    (s.framePending = true → play s = (s, false)) ∧
    play (play s).1 = ((play s).1, false) ∧
    pause (pause s) = pause s ∧
    (pause s).translate = s.translate ∧
    (pause s).currentTime = s.currentTime ∧
    (pause s).lastFrame = s.lastFrame := by
  unfold play pause
  cases h : s.framePending <;> simp [h]

/-- Witness for the C9 theorem at the mounted state, where a callback
is pending. -/
theorem play_pause_idempotent_witness :
    play mountState = (mountState, false) ∧ pause (pause mountState) = pause mountState :=
  ⟨(play_pause_idempotent mountState).1 rfl, (play_pause_idempotent mountState).2.2.1⟩

/-- Unfolding lemma: a throttled callback (elapsed time not above
`fps`) publishes nothing and re-stores both refs. -/
theorem animateSlider_throttle (fps T : ℚ) (s : SliderState) (t : ℚ)
    (h : ¬ t - effRef s.lastFrame t > fps) :
    animateSlider fps T s t =
      ({ currentTime := some (effRef s.currentTime t),
         lastFrame := some (effRef s.lastFrame t),
         translate := s.translate, framePending := true }, []) := by
  simp [animateSlider, h]

/-- Unfolding lemma: an accepted callback with progress below `1`
publishes the progress and keeps the cycle anchor. -/
theorem animateSlider_publish (fps T : ℚ) (s : SliderState) (t : ℚ)
    (hacc : t - effRef s.lastFrame t > fps)
    (hlt : min ((t - effRef s.currentTime t) / T) 1 < 1) :
    animateSlider fps T s t =
      ({ currentTime := some (effRef s.currentTime t), lastFrame := none,
         translate := min ((t - effRef s.currentTime t) / T) 1, framePending := true },
       [min ((t - effRef s.currentTime t) / T) 1]) := by
  simp [animateSlider, hacc, hlt]

/-- Unfolding lemma: an accepted callback whose progress reached `1`
publishes it, clears the anchor, and publishes `0` in the same call. -/
theorem animateSlider_reset (fps T : ℚ) (s : SliderState) (t : ℚ)
    (hacc : t - effRef s.lastFrame t > fps)
    (hlt : ¬ min ((t - effRef s.currentTime t) / T) 1 < 1) :
    animateSlider fps T s t =
      ({ currentTime := none, lastFrame := none, translate := 0, framePending := true },
       [min ((t - effRef s.currentTime t) / T) 1, 0]) := by
  simp [animateSlider, hacc, hlt]

/-- Unfolding lemma for `runOuts` on the empty timestamp list. -/
theorem runOuts_nil (fps T : ℚ) (s : SliderState) : runOuts fps T s [] = [] := rfl

/-- Unfolding lemma for `runOuts` on a cons of timestamps. -/
theorem runOuts_cons (fps T : ℚ) (s : SliderState) (t : ℚ) (ts : List ℚ) :
    runOuts fps T s (t :: ts) =
      (animateSlider fps T s t).2 :: runOuts fps T (animateSlider fps T s t).1 ts := rfl

/-- The cycle invariant bounds the effective anchor that `animateSlider`
will use at timestamp `t`. -/
theorem anchor_bounds (T : ℚ) (s : SliderState) (t : ℚ)
    (hInv : CycleInv T s t) :
    effRef s.currentTime t ≤ t ∧ (effRef s.currentTime t = 0 → t = 0) ∧
    s.translate ≤ min ((t - effRef s.currentTime t) / T) 1 := by
  obtain ⟨h0, hnone, hsome⟩ := hInv
  cases hs : s.currentTime with
  | none =>
      have htr := hnone hs
      simp only [hs, effRef, htr, sub_self, zero_div]
      exact ⟨le_refl t, fun h => h, le_min le_rfl zero_le_one⟩
  | some x =>
      by_cases hx : x = 0
      · subst hx
        have htr := (hsome 0 hs).2.1 rfl
        have heff : effRef (some (0 : ℚ)) t = t := by
          simp [effRef]
        rw [heff, htr]
        simp only [sub_self, zero_div]
        exact ⟨le_refl t, fun h => h, le_min le_rfl zero_le_one⟩
      · obtain ⟨hle, _, hb⟩ := hsome x hs
        simp only [hs, effRef, if_neg hx]
        exact ⟨hle, fun h => absurd h hx, hb⟩

/-- One `animateSlider` step from a state satisfying the cycle
invariant: the publication list is empty, a single in-range progress at
least the previous one, or the exact pair `[1, 0]`; and the invariant
is preserved at every later timestamp. -/
theorem animateSlider_cases (fps T : ℚ) (hT : 0 < T) (s : SliderState) (t : ℚ)
    (hInv : CycleInv T s t) :
    ((animateSlider fps T s t).2 = [] ∧ (animateSlider fps T s t).1.translate = s.translate ∨
      (∃ p, (animateSlider fps T s t).2 = [p] ∧ 0 ≤ p ∧ p < 1 ∧
        (animateSlider fps T s t).1.translate = p ∧ s.translate ≤ p) ∨
      (animateSlider fps T s t).2 = [1, 0] ∧ (animateSlider fps T s t).1.translate = 0 ∧
        s.translate ≤ 1) ∧
    ∀ t', t ≤ t' → CycleInv T (animateSlider fps T s t).1 t' := by
  obtain ⟨hle, hzero, hbound⟩ := anchor_bounds T s t hInv
  have h0 : 0 ≤ s.translate := hInv.1
  have hpnn : 0 ≤ min ((t - effRef s.currentTime t) / T) 1 :=
    le_min (div_nonneg (sub_nonneg.2 hle) hT.le) zero_le_one
  by_cases hacc : t - effRef s.lastFrame t > fps
  · by_cases hlt : min ((t - effRef s.currentTime t) / T) 1 < 1
    · rw [animateSlider_publish fps T s t hacc hlt]
      constructor
      · exact Or.inr (Or.inl ⟨_, rfl, hpnn, hlt, rfl, hbound⟩)
      · intro t' ht'
        refine ⟨hpnn, fun h => Option.noConfusion h, ?_⟩
        intro ct hct
        have heq : effRef s.currentTime t = ct := Option.some.inj hct
        subst heq
        refine ⟨hle.trans ht', ?_, ?_⟩
        · intro hE0
          rw [hE0, hzero hE0]
          simp
        · exact le_trans (min_le_min (by gcongr) le_rfl) le_rfl
    · rw [animateSlider_reset fps T s t hacc hlt]
      have hp1 : min ((t - effRef s.currentTime t) / T) 1 = 1 :=
        le_antisymm (min_le_right _ _) (not_lt.1 hlt)
      constructor
      · exact Or.inr (Or.inr ⟨by rw [hp1], rfl, hbound.trans (min_le_right _ _)⟩)
      · intro t' _
        exact ⟨le_refl 0, fun _ => rfl, fun ct hct => Option.noConfusion hct⟩
  · rw [animateSlider_throttle fps T s t hacc]
    constructor
    · exact Or.inl ⟨rfl, rfl⟩
    · intro t' ht'
      refine ⟨h0, fun h => Option.noConfusion h, ?_⟩
      intro ct hct
      have heq : effRef s.currentTime t = ct := Option.some.inj hct
      subst heq
      refine ⟨hle.trans ht', ?_, hbound.trans (min_le_min (by gcongr) le_rfl)⟩
      intro hE0
      have hmin0 : min ((t - effRef s.currentTime t) / T) 1 = 0 := by
        rw [hE0, hzero hE0]
        simp
      exact le_antisymm (hbound.trans hmin0.le) h0

/-- Over any non-decreasing timestamp sequence, from a state satisfying
the cycle invariant at the first timestamp: every per-callback
publication list is empty, a single in-range value below `1`, or
`[1, 0]`; and the published values, prefixed with the state's current
progress, form a chain in which every step is non-decreasing except the
reset step from `1` to `0`. -/
theorem runOuts_sound (fps T : ℚ) (hT : 0 < T) :
    ∀ ts : List ℚ, ts.Chain' (· ≤ ·) → ∀ s : SliderState,
      (∀ t₀ ∈ ts.head?, CycleInv T s t₀) →
      (∀ out ∈ runOuts fps T s ts,
        out = [] ∨ (∃ p, out = [p] ∧ 0 ≤ p ∧ p < 1) ∨ out = [1, 0]) ∧
      List.Chain' (fun p q => p ≤ q ∨ (p = 1 ∧ q = 0))
        (s.translate :: (runOuts fps T s ts).flatten) := by
  intro ts
  induction ts with
  | nil =>
      intro _ s _
      simp [runOuts_nil]
  | cons t ts ih =>
      intro hchain s hinv
      have hinvt : CycleInv T s t := hinv t rfl
      obtain ⟨hcons, hchain'⟩ := List.chain'_cons'.1 hchain
      have hstep := animateSlider_cases fps T hT s t hinvt
      have hinv' : ∀ t₀ ∈ ts.head?, CycleInv T (animateSlider fps T s t).1 t₀ := by
        intro t₀ ht₀
        exact hstep.2 t₀ (hcons t₀ ht₀)
      obtain ⟨hshape, hchain2⟩ := ih hchain' (animateSlider fps T s t).1 hinv'
      rw [runOuts_cons]
      constructor
      · intro out hout
        rcases List.mem_cons.1 hout with h | h
        · subst h
          rcases hstep.1 with ⟨h1, _⟩ | ⟨p, h1, hp0, hp1, _, _⟩ | ⟨h1, _, _⟩
          · exact Or.inl h1
          · exact Or.inr (Or.inl ⟨p, h1, hp0, hp1⟩)
          · exact Or.inr (Or.inr h1)
        · exact hshape out h
      · rw [List.flatten_cons]
        rcases hstep.1 with ⟨h1, h2⟩ | ⟨p, h1, _, _, h2, h3⟩ | ⟨h1, h2, h3⟩
        · rw [h1, List.nil_append]
          rw [h2] at hchain2
          exact hchain2
        · rw [h1, List.cons_append, List.nil_append]
          rw [h2] at hchain2
          exact List.chain'_cons.2 ⟨Or.inl h3, hchain2⟩
        · rw [h1, List.cons_append, List.cons_append, List.nil_append]
          rw [h2] at hchain2
          exact List.chain'_cons.2 ⟨Or.inl h3,
            List.chain'_cons.2 ⟨Or.inr ⟨rfl, rfl⟩, hchain2⟩⟩

/-- Claim C2: for every `totalTime > 0` and every non-decreasing
sequence of frame-callback timestamps from the mounted state, every
published progress value lies in `[0, 1]`; each callback publishes
nothing, one value below `1`, or exactly `1` immediately followed by
`0` within that same callback; and consecutive published values never
decrease except at the `1 → 0` reset. -/
theorem animate_progress_invariants (T fps : ℚ) (hT : 0 < T)
    (ts : List ℚ) (hmono : ts.Chain' (· ≤ ·)) :
    (∀ out ∈ runOuts fps T mountState ts, ∀ p ∈ out, 0 ≤ p ∧ p ≤ 1) ∧
    (∀ out ∈ runOuts fps T mountState ts,
      out = [] ∨ (∃ p, out = [p] ∧ 0 ≤ p ∧ p < 1) ∨ out = [1, 0]) ∧
    List.Chain' (fun p q => p ≤ q ∨ (p = 1 ∧ q = 0))
      (runOuts fps T mountState ts).flatten := by
  have hinv : ∀ t₀ ∈ ts.head?, CycleInv T mountState t₀ := by
    intro t₀ _
    exact ⟨le_refl 0, fun _ => rfl, fun ct hct => Option.noConfusion hct⟩
  obtain ⟨hshape, hchain⟩ := runOuts_sound fps T hT ts hmono mountState hinv
  refine ⟨?_, hshape, hchain.tail⟩
  intro out hout p hp
  rcases hshape out hout with h | ⟨q, h, hq0, hq1⟩ | h
  · subst h
    exact absurd hp (List.not_mem_nil p)
  · subst h
    have hpq := List.mem_singleton.1 hp
    subst hpq
    exact ⟨hq0, hq1.le⟩
  · subst h
    rcases List.mem_cons.1 hp with rfl | hp'
    · exact ⟨zero_le_one, le_refl 1⟩
    · have hp0 := List.mem_singleton.1 hp'
      subst hp0
      exact ⟨le_refl 0, zero_le_one⟩

/-- Witness for the C2 theorem: the default loop time and frame
interval over the timestamps `0, 100, 200`. -/
theorem animate_progress_invariants_witness :
    (0 : ℚ) < 10000 ∧
    List.Chain' (fun p q : ℚ => p ≤ q ∨ (p = 1 ∧ q = 0))
      (runOuts (1000 / 60) 10000 mountState [0, 100, 200]).flatten :=
  ⟨by norm_num,
    (animate_progress_invariants 10000 (1000 / 60) (by norm_num) [0, 100, 200]
      (by norm_num [List.chain'_cons, List.chain'_singleton])).2.2⟩

/-- Claim C4: the throttle compares the elapsed time directly against
the `fps` prop, not against `1000 / fps`. With `fps = 60` (the value the
repository README documents as the default frame rate) a frame arriving
`20` ms after the last accepted frame is rejected, although
`20` exceeds `1000 / 60`; with the default constant `FPS = 1000 / 60` —
already an interval, not a rate — the same frame is accepted and
publishes. -/
theorem throttle_uses_fps_as_interval :
    (animateSlider 60 10000
      { currentTime := some 100, lastFrame := some 1000, translate := 0,
        framePending := true } 1020).2 = [] ∧
    (animateSlider FPS 10000
      { currentTime := some 100, lastFrame := some 1000, translate := 0,
        framePending := true } 1020).2 = [23 / 250] ∧
    FPS = 1000 / 60 ∧ FPS < 20 := by
  refine ⟨?_, ?_, rfl, by norm_num [FPS]⟩
  · norm_num [animateSlider, effRef]
  · norm_num [animateSlider, effRef, FPS, min_def]

/-- Helper: resuming at wall-clock time `500` with paused progress
`1/2` and `totalTime = 1000` computes the anchor
`500 - 1000 * (1/2) = 0`; the falsy guard treats `0` as unset, the
callback re-anchors at its own timestamp, and the accepted frame
publishes `0` — a reset, not the paused progress `1/2`. -/
theorem play_zero_anchor_counterexample :
    (playFrame 50 1000
      { currentTime := some 999, lastFrame := some 100, translate := 1 / 2,
        framePending := false } 500).2 = [0] ∧ (0 : ℚ) ≠ 1 / 2 := by
  constructor
  · norm_num [playFrame, animateSlider, effRef, min_def]
  · norm_num

/-- Claim C5 (amended): from any paused state with last published
progress `p ≤ 1`, resuming at time `t` with `t - totalTime * p ≠ 0`
anchors the virtual cycle start at `t - totalTime * p`; if the resume
callback is accepted it publishes exactly `p`, and if it is throttled
the anchor and progress are retained and the next accepted callback at
time `ta` publishes exactly `min(p + (ta - t) / totalTime, 1)` —
continuation from the paused offset, not a reset. (The proviso
`t - totalTime * p ≠ 0` is forced by the falsy anchor guard — see the
counterexample.) -/
theorem play_resume_continuity (fps T t : ℚ) (s : SliderState) (hT : 0 < T)
    (hp1 : s.translate ≤ 1) (hanc : t - T * s.translate ≠ 0) :
    ((playFrame fps T s t).2 ≠ [] → (playFrame fps T s t).2.head? = some s.translate) ∧
    ((playFrame fps T s t).2 = [] →
      (playFrame fps T s t).1.currentTime = some (t - T * s.translate) ∧
      (playFrame fps T s t).1.translate = s.translate ∧
      ∀ ta, (animateSlider fps T (playFrame fps T s t).1 ta).2 ≠ [] →
        (animateSlider fps T (playFrame fps T s t).1 ta).2.head? =
          some (min (s.translate + (ta - t) / T) 1)) := by
  have hT' : T ≠ 0 := ne_of_gt hT
  have heff : effRef (some (t - T * s.translate)) t = t - T * s.translate := by
    simp [effRef, hanc]
  have hpr : (t - (t - T * s.translate)) / T = s.translate := by
    field_simp
  unfold playFrame
  set s₁ : SliderState := { s with currentTime := some (t - T * s.translate) } with hs₁
  have hc : s₁.currentTime = some (t - T * s.translate) := rfl
  have htr : s₁.translate = s.translate := rfl
  have hec : effRef s₁.currentTime t = t - T * s.translate := by
    rw [hc]
    exact heff
  have hmin₁ : min ((t - effRef s₁.currentTime t) / T) 1 = s.translate := by
    rw [hec, hpr, min_eq_left hp1]
  by_cases hacc : t - effRef s₁.lastFrame t > fps
  · by_cases hlt : min ((t - effRef s₁.currentTime t) / T) 1 < 1
    · rw [animateSlider_publish fps T s₁ t hacc hlt]
      refine ⟨fun _ => congrArg some hmin₁, fun h => ?_⟩
      simp at h
    · rw [animateSlider_reset fps T s₁ t hacc hlt]
      refine ⟨fun _ => congrArg some hmin₁, fun h => ?_⟩
      simp at h
  · rw [animateSlider_throttle fps T s₁ t hacc]
    refine ⟨fun h => absurd rfl h, fun _ => ⟨congrArg some hec, htr, ?_⟩⟩
    intro ta hta
    show (animateSlider fps T
      ({ currentTime := some (effRef s₁.currentTime t),
         lastFrame := some (effRef s₁.lastFrame t),
         translate := s₁.translate, framePending := true } : SliderState) ta).2.head? =
      some (min (s.translate + (ta - t) / T) 1)
    set s₂ : SliderState :=
      { currentTime := some (effRef s₁.currentTime t),
        lastFrame := some (effRef s₁.lastFrame t),
        translate := s₁.translate, framePending := true } with hs₂
    have hta' : (animateSlider fps T s₂ ta).2 ≠ [] := hta
    have harith : (ta - (t - T * s.translate)) / T = s.translate + (ta - t) / T := by
      field_simp
      ring
    have hc2 : effRef s₂.currentTime ta = t - T * s.translate := by
      show effRef (some (effRef s₁.currentTime t)) ta = t - T * s.translate
      rw [hec]
      simp [effRef, hanc]
    have hmin₂ : min ((ta - effRef s₂.currentTime ta) / T) 1 =
        min (s.translate + (ta - t) / T) 1 := by
      rw [hc2, harith]
    by_cases hacc2 : ta - effRef s₂.lastFrame ta > fps
    · by_cases hlt2 : min ((ta - effRef s₂.currentTime ta) / T) 1 < 1
      · rw [animateSlider_publish fps T s₂ ta hacc2 hlt2]
        exact congrArg some hmin₂
      · rw [animateSlider_reset fps T s₂ ta hacc2 hlt2]
        exact congrArg some hmin₂
    · have hnil : (animateSlider fps T s₂ ta).2 = [] := by
        rw [animateSlider_throttle fps T s₂ ta hacc2]
      exact absurd hnil hta'

/-- Witness for the amended C5 theorem: paused at progress `1/2`,
resumed at time `2000` with `totalTime = 1000`; the resume callback is
accepted and publishes `1/2`. -/
theorem play_resume_continuity_witness :
    (playFrame 50 1000
      { currentTime := some 1, lastFrame := some 1, translate := 1 / 2,
        framePending := false } 2000).2.head? = some ((1 : ℚ) / 2) := by
  have h := (play_resume_continuity 50 1000 2000
    { currentTime := some 1, lastFrame := some 1, translate := 1 / 2, framePending := false }
    (by norm_num) (by norm_num) (by norm_num)).1
  exact h (by norm_num [playFrame, animateSlider, effRef, min_def])

/-- Claim C6: the `width` memo's dependency array omits `sliderWidth`,
so over two renders in which the measured strip width changes from
`300` to `400` while `sliderHeight = 50` and `duplicates = 2` are
unchanged, the rendered container width stays at the stale `600px`,
whereas the claimed pure function of the current inputs gives
`400 * 2 = 800px`. -/
theorem width_memo_stale :
    (renderWidths initialWidthMemo
      [(Measured.px 300, Measured.px 50, JSNum.num 2),
       (Measured.px 400, Measured.px 50, JSNum.num 2)]).value =
      CssLen.px (JSNum.num 600) ∧
    computeWidth (Measured.px 400) (JSNum.num 2) = CssLen.px (JSNum.num 800) ∧
    CssLen.px (JSNum.num 600) ≠ CssLen.px (JSNum.num 800) := by
  have h1 : widthMemoStep initialWidthMemo (Measured.px 300) (Measured.px 50) (JSNum.num 2) =
      { deps := some (Measured.px 50, JSNum.num 2), value := CssLen.px (JSNum.num 600) } := by
    rw [widthMemoStep, if_neg (by simp [initialWidthMemo])]
    norm_num [computeWidth, jsMulFin, initialWidthMemo]
  have h2 : widthMemoStep
      { deps := some (Measured.px 50, JSNum.num 2), value := CssLen.px (JSNum.num 600) }
      (Measured.px 400) (Measured.px 50) (JSNum.num 2) =
      { deps := some (Measured.px 50, JSNum.num 2), value := CssLen.px (JSNum.num 600) } := by
    rw [widthMemoStep, if_pos rfl]
  refine ⟨?_, ?_, ?_⟩
  · simp only [renderWidths, h1, h2]
  · norm_num [computeWidth, jsMulFin]
  · norm_num

/-- Helper: a chain resumed from a paused state whose throttle ref
still holds `100` (pause does not clear it) publishes already on its
first callback — at resume time `1000` the elapsed `900` exceeds the
interval `50`, so `3/10` is published immediately. -/
theorem resume_first_callback_publishes :
    (playFrame 50 1000
      { currentTime := some 200, lastFrame := some 100, translate := 3 / 10,
        framePending := false } 1000).2 = [3 / 10] ∧
    ([3 / 10] : List ℚ) ≠ [] := by
  constructor
  · norm_num [playFrame, animateSlider, effRef, min_def]
  · simp

/-- Claim C10 (amended): whenever the throttle ref is unset (`null`,
as after mount, or `0`) the chain's next callback initialises it to its
own timestamp, publishes nothing, and only reschedules; from then on a
callback publishes exactly when its elapsed time strictly exceeds the
throttle interval, so progress advances no earlier than the second
callback. (After a resume the ref may instead still hold a value from
before the pause, in which case the first callback can publish — see
the counterexample.) -/
theorem first_callback_no_publish (fps T t t' : ℚ) (s : SliderState) (hfps : 0 ≤ fps)
    (hlf : s.lastFrame = none ∨ s.lastFrame = some 0) :
    (animateSlider fps T s t).2 = [] ∧
    (animateSlider fps T s t).1.lastFrame = some t ∧
    (t ≠ 0 →
      ((animateSlider fps T (animateSlider fps T s t).1 t').2 ≠ [] ↔ fps < t' - t)) := by
  have heff : effRef s.lastFrame t = t := by
    rcases hlf with h | h <;> simp [effRef, h]
  have hthr : ¬ t - effRef s.lastFrame t > fps := by
    rw [heff]
    simp only [sub_self]
    exact not_lt.2 hfps
  rw [animateSlider_throttle fps T s t hthr]
  refine ⟨rfl, congrArg some heff, ?_⟩
  intro ht0
  show (animateSlider fps T
    ({ currentTime := some (effRef s.currentTime t),
       lastFrame := some (effRef s.lastFrame t),
       translate := s.translate, framePending := true } : SliderState) t').2 ≠ [] ↔
    fps < t' - t
  set s₂ : SliderState :=
    { currentTime := some (effRef s.currentTime t),
      lastFrame := some (effRef s.lastFrame t),
      translate := s.translate, framePending := true } with hs₂
  have hl2 : effRef s₂.lastFrame t' = t := by
    show effRef (some (effRef s.lastFrame t)) t' = t
    rw [heff]
    simp [effRef, ht0]
  constructor
  · intro hne
    by_contra hle
    have hthr2 : ¬ t' - effRef s₂.lastFrame t' > fps := by
      rw [hl2]
      exact fun hgt => hle hgt
    exact hne (by rw [animateSlider_throttle fps T s₂ t' hthr2])
  · intro hgt
    have hacc2 : t' - effRef s₂.lastFrame t' > fps := by
      rw [hl2]
      exact hgt
    by_cases hlt2 : min ((t' - effRef s₂.currentTime t') / T) 1 < 1
    · rw [animateSlider_publish fps T s₂ t' hacc2 hlt2]
      simp
    · rw [animateSlider_reset fps T s₂ t' hacc2 hlt2]
      simp

/-- Witness for the amended C10 theorem: from the mounted state, the
first callback at `100` publishes nothing and the second at `200`
publishes exactly when `200 - 100 > 50`. -/
theorem first_callback_no_publish_witness :
    (animateSlider 50 1000 mountState 100).2 = [] ∧
    (animateSlider 50 1000 mountState 100).1.lastFrame = some 100 ∧
    ((100 : ℚ) ≠ 0 →
      ((animateSlider 50 1000 (animateSlider 50 1000 mountState 100).1 200).2 ≠ [] ↔
        (50 : ℚ) < 200 - 100)) :=
  first_callback_no_publish 50 1000 100 200 mountState (by norm_num) (Or.inl rfl)
